import Mathlib

/-!
Verification of the lock-provider subsystem of the repository
eat_your_vegetables (files eat_your_vegetables/locks.py and
eat_your_vegetables/__init__.py), via a shallow embedding in Lean 4.

The embedding models Python values and control flow explicitly:

* an exception is a value of PyExn, and a fallible Python call returns
  Except PyExn alpha;
* observable actions (acquiring a lock, opening a file, touching the
  registry mutex, network traffic) are recorded as events in a trace,
  so that ordering and guaranteed-release claims become statements
  about the trace;
* a Python context manager is a ScopedLock, and the with statement is
  the function withScope, which always appends the exit events and
  suppresses the body exception exactly when the exit hook asks for
  suppression (for every lock in this repository it does not).
-/

/-- Exceptions a modelled Python call can raise.  valueError and
keyError correspond to the builtin Python exceptions of the same name;
userExn stands for an arbitrary exception raised by user code inside a
protected section. -/
inductive PyExn where
  | valueError (msg : String)
  | keyError (key : String)
  | userExn (code : Nat)
  deriving DecidableEq, Repr

/-- Observable events of the lock subsystem.  enterLock and exitLock
record a lock primitive being entered and left; callF records the
wrapped function body running; mutexAcq, mutexRel and lookup record
the ProcessLockFactory internal mutex and registry traffic; openFile,
flockEx and closeFile record the file backend touching the
filesystem. -/
inductive Ev where
  | enterLock (key : String)
  | exitLock (key : String)
  | callF
  | mutexAcq
  | mutexRel
  | lookup (key : String)
  | openFile (path : String)
  | flockEx (path : String)
  | closeFile (path : String)
  deriving DecidableEq, Repr

/-- A Python context manager as the with statement sees it: the events
of entering (acquiring), the events of leaving (releasing), and
whether the exit hook suppresses an exception raised by the body
(Python: a truthy return from the exit hook).  Every context manager
produced in locks.py — the noop generator, the file_lock generator and
the multiprocessing RLock objects — re-raises, so is modelled with
suppress = false. -/
structure ScopedLock where
  enter : List Ev
  exit : List Ev
  suppress : Bool
  deriving DecidableEq, Repr

/-- Semantics of the Python with statement, run on a body that has
already been evaluated to a trace and an outcome: the enter events
come first, then the body trace, then — on every outcome, normal or
raising — the exit events.  A raising body propagates its exception
unchanged unless the lock suppresses it, in which case the with
statement completes normally with no value (modelled as none). -/
def withScope (lk : ScopedLock) (body : List Ev × Except PyExn α) :
    List Ev × Except PyExn (Option α) :=
  (lk.enter ++ body.1 ++ lk.exit,
    match body.2 with
    | .ok v => .ok (some v)
    | .error e => if lk.suppress then .ok none else .error e)

/-- The annotation surface of locks.py: LockAnnotation wraps a lock
factory.  The factory field is the embedding of self._factory, the
call producing a fresh lock from a key, expires and timeout.  The type
of lock produced is a parameter so that a recording factory can
observe exactly which arguments reach it. -/
structure LockAnn (L : Type) where
  factory : String → Nat → Nat → L

/-- Embedding of LockAnnotation.__call__ (decorator mode) applied to a
function f at arguments args: the wrapped call evaluates
with self._factory(key, expires=expires, timeout=timeout):
return fxn(args).  The Python defaults expires=120 and timeout=60 are
kept as Lean default arguments. -/
def LockAnn.decorate (self : LockAnn ScopedLock) (key : String)
    (f : α → List Ev × Except PyExn β) (args : α)
    (expires : Nat := 120) (timeout : Nat := 60) :
    List Ev × Except PyExn (Option β) :=
  withScope (self.factory key expires timeout) (f args)

/-- Embedding of LockAnnotation.inline: return the lock produced by
the factory, with the same defaults expires=120 and timeout=60. -/
def LockAnn.inline (self : LockAnn L) (key : String)
    (expires : Nat := 120) (timeout : Nat := 60) : L :=
  self.factory key expires timeout

/-- Embedding of the noop context manager: a lock whose enter and exit
do nothing and which does not suppress (the generator does not catch
the thrown exception). -/
def noop : ScopedLock :=
  { enter := [], exit := [], suppress := false }

/-- Embedding of DummyLockFactory.__call__: ignore every argument and
return the noop lock. -/
def dummyLockFactory (key : String) (expires timeout : Nat) : ScopedLock :=
  noop

/-- A LockAnn over the dummy factory, as built by init_celery for the
selector value none. -/
def dummyAnn : LockAnn ScopedLock :=
  { factory := dummyLockFactory }

/-- A factory that merely records the arguments it is given, used to
state which expires and timeout values the annotation forwards. -/
def recordingFactory : LockAnn (String × Nat × Nat) :=
  { factory := fun k e t => (k, e, t) }

/-- Settings mapping as handed to the factories: an association list
from setting name to string value, looked up like a Python dict. -/
def Settings := List (String × String)

/-- Embedding of settings.get(key): the value at the first matching
entry, or none when the key is absent. -/
def getSetting (s : Settings) (k : String) : Option String :=
  match s with
  | [] => none
  | (k2, v) :: rest => if k2 = k then some v else getSetting rest k

/-- Embedding of the ProcessLockFactory object state.  The Python
object holds self._locks, a defaultdict(RLock) mapping each key to a
multiprocessing RLock object; the embedding identifies RLock objects
by a numeric id and keeps a counter so that a freshly constructed
RLock gets an id never used before.  self._lock, the internal mutex,
has no state to model beyond the events of taking and dropping it. -/
structure ProcessLockFactory where
  nextId : Nat
  locks : List (String × Nat)
  deriving DecidableEq, Repr

/-- Dictionary lookup in the registry: the id stored at key, if any. -/
def lookupLock : List (String × Nat) → String → Option Nat
  | [], _ => none
  | (k, i) :: rest, key => if k = key then some i else lookupLock rest key

/-- Embedding of ProcessLockFactory constructed fresh (empty
registry). -/
def ProcessLockFactory.initial : ProcessLockFactory :=
  { nextId := 0, locks := [] }

/-- Embedding of ProcessLockFactory.__call__: under the internal
mutex, evaluate self._locks[key]; the defaultdict returns the stored
RLock when the key is present and otherwise constructs a fresh RLock,
stores it at the key and returns it.  The result is the next factory
state, the id of the returned RLock, and the event trace of the call
(mutex acquired, registry touched, mutex released).  The expires and
timeout arguments are accepted and not used, exactly as in the
source. -/
def ProcessLockFactory.call (s : ProcessLockFactory) (key : String)
    (expires timeout : Nat) : ProcessLockFactory × Nat × List Ev :=
  match lookupLock s.locks key with
  | some i => (s, i, [Ev.mutexAcq, Ev.lookup key, Ev.mutexRel])
  | none =>
    ({ nextId := s.nextId + 1, locks := s.locks ++ [(key, s.nextId)] },
     s.nextId, [Ev.mutexAcq, Ev.lookup key, Ev.mutexRel])

/-- Well-formedness of a ProcessLockFactory state: every RLock id the
registry can hand out was drawn from the counter (so is below nextId),
and two different keys never share an RLock object.  Holds for the
fresh factory and is preserved by every call. -/
def ProcessLockFactory.WF (s : ProcessLockFactory) : Prop :=
  (∀ k v, lookupLock s.locks k = some v → v < s.nextId)
  ∧ (∀ k1 k2 v, lookupLock s.locks k1 = some v →
      lookupLock s.locks k2 = some v → k1 = k2)

/-- Whether a path string ends with the separator character. -/
def strHasSlashEnd (p : String) : Bool :=
  p.toList.getLast? = some '/'

/-- Whether a path string is absolute (begins with the separator). -/
def strAbsolute (p : String) : Bool :=
  match p.toList with
  | [] => false
  | c :: _ => c = '/'

/-- Embedding of os.path.join for two components, following the posix
rules used by the source: an absolute second component discards the
first; otherwise a separator is inserted unless the first component is
empty or already ends with one. -/
def pathJoin (a b : String) : String :=
  if strAbsolute b then b
  else if a = "" || strHasSlashEnd a then a ++ b
  else a ++ "/" ++ b

/-- Split a character list at the separator character. -/
def splitPathAux (acc : List Char) : List Char → List String
  | [] => [String.mk acc.reverse]
  | c :: rest =>
    if c = '/' then String.mk acc.reverse :: splitPathAux [] rest
    else splitPathAux (c :: acc) rest

/-- Path components of a path string, dropping empty components and
single dots. -/
def splitPath (p : String) : List String :=
  (splitPathAux [] p.toList).filter (fun c => c ≠ "" && c ≠ ".")

/-- Resolve parent-directory components: a ".." discards the
component before it (at the root it is a no-op, as in posix). -/
def normAux : List String → List String → List String
  | acc, [] => acc.reverse
  | acc, c :: rest =>
    if c = ".." then normAux (acc.drop 1) rest else normAux (c :: acc) rest

/-- Normal form of an absolute path, as its resolved component
list. -/
def normalizePath (p : String) : List String :=
  normAux [] (splitPath p)

/-- Whether the file at path p lies inside directory dir, after
resolving dot-dot components of both. -/
def insideDir (p dir : String) : Bool :=
  (normalizePath dir).isPrefixOf (normalizePath p)

/-- Embedding of the file_lock context manager at a given path: enter
opens (and with mode "w" creates) the file and takes an exclusive
flock on it; exit closes the file, which is what drops the advisory
lock; the generator does not catch the thrown exception, so nothing is
suppressed. -/
def file_lock (path : String) : ScopedLock :=
  { enter := [Ev.openFile path, Ev.flockEx path],
    exit := [Ev.closeFile path],
    suppress := false }

/-- Embedding of the FileLockFactory object: it retains only the lock
directory chosen at construction. -/
structure FileLockFactory where
  lockdir : String
  deriving DecidableEq, Repr

/-- Embedding of FileLockFactory.__init__: the lock directory is
settings.get("lock_dir", "/var/run/celery/"), and os.makedirs is run
when the directory does not exist.  The filesystem is modelled as the
list of existing directories. -/
def FileLockFactory.init (settings : Settings) (fs : List String) :
    FileLockFactory × List String :=
  let d := (getSetting settings "lock_dir").getD "/var/run/celery/"
  ({ lockdir := d }, if d ∈ fs then fs else d :: fs)

/-- Embedding of FileLockFactory.__call__: a file_lock on
os.path.join(self._lockdir, key).  The expires and timeout arguments
are accepted and not used, exactly as in the source. -/
def FileLockFactory.call (f : FileLockFactory) (key : String)
    (expires timeout : Nat) : ScopedLock :=
  file_lock (pathJoin f.lockdir key)

/-- Network events the embedding records; construction code that never
emits one cannot have observed whether a host is reachable. -/
inductive NetEv where
  | connect (endpoint : String)
  deriving DecidableEq, Repr

/-- Embedding of the redis client object returned by
StrictRedis.from_url: a connection pool remembering the url, with no
connection established yet (redis-py connects lazily, on the first
command). -/
structure RedisClient where
  url : String
  deriving DecidableEq, Repr

/-- Whether the second string opens the first one. -/
def strLeadsWith (p lead : String) : Bool :=
  lead.toList.isPrefixOf p.toList

/-- Scheme check performed by StrictRedis.from_url when parsing the
url; a url with an unsupported scheme raises at parse time. -/
def isRedisUrl (u : String) : Bool :=
  strLeadsWith u "redis://" || strLeadsWith u "rediss://" || strLeadsWith u "unix://"

/-- Embedding of RedisLockFactory.__init__: look up
settings["redis_url"] (KeyError when absent) and build the client with
StrictRedis.from_url, which parses the url and constructs a lazy
connection pool without network traffic.  The reachable argument lists
the hosts the network would let us reach; the construction code never
consults it, and the returned trace of network events records that no
connection is attempted. -/
def redisLockFactoryInit (settings : Settings) (reachable : List String) :
    Except PyExn RedisClient × List NetEv :=
  match getSetting settings "redis_url" with
  | none => (.error (.keyError "redis_url"), [])
  | some u =>
    if isRedisUrl u then (.ok { url := u }, [])
    else (.error (.valueError "Redis URL must specify a supported scheme"), [])

/-- Embedding of the backend selection step of init_celery: read
settings.get("lock_factory", "none"), replace the three recognized
shortcut values by the entry-point path of the matching factory class,
and hand anything else to pkg_resources.EntryPoint.parse unchanged. -/
def resolveFactoryName (settings : Settings) : String :=
  let factory_name := (getSetting settings "lock_factory").getD "none"
  if factory_name = "none" then "eat_your_vegetables.locks:DummyLockFactory"
  else if factory_name = "proc" then "eat_your_vegetables.locks:ProcessLockFactory"
  else if factory_name = "file" then "eat_your_vegetables.locks:FileLockFactory"
  else factory_name

/-- Entry-point path of the redis factory class, the value a config
file must give to select it (no shortcut exists for it). -/
def redisFactoryPath : String :=
  "eat_your_vegetables.locks:RedisLockFactory"

/-- Embedding of an ImportWarningClass instance, the placeholder bound
to the module globals lock and celery before init_celery runs.  It has
no state. -/
inductive ImportWarningObj where
  | mk
  deriving DecidableEq, Repr

/-- Embedding of ImportWarningClass.__getattribute__: every attribute
access returns the object itself. -/
def ImportWarningObj.getattr (o : ImportWarningObj) (name : String) :
    ImportWarningObj :=
  o

/-- The message of the ValueError raised by ImportWarningClass. -/
def importWarningMsg : String :=
  "You must set up eat_your_vegetables before importing any files that contain tasks"

/-- Embedding of ImportWarningClass.__call__: raise ValueError no
matter the arguments; in particular no lock is ever produced. -/
def ImportWarningObj.call (o : ImportWarningObj) (args : List String) :
    Except PyExn ScopedLock :=
  .error (.valueError importWarningMsg)

/-- Global state of one lock key domain for a backend with a real
arbiter: the list of holds currently in force, each a pair of the key
and the logical holder that entered it.  A reentrant holder may appear
several times for the same key. -/
structure LockState where
  held : List (String × Nat)
  deriving DecidableEq, Repr

/-- Steps the arbiter allows.  acquire encodes the blocking behavior
of the primitives the backends delegate to (the per-key
multiprocessing RLock of ProcessLockFactory, the exclusive flock of
file_lock): a contender enters only when no distinct holder currently
holds the key; the same holder may re-enter (reentrancy).  release
drops one hold. -/
inductive LockStep : LockState → LockState → Prop where
  | acquire (k : String) (h : Nat) (s : LockState)
      (hfree : ∀ h2, (k, h2) ∈ s.held → h2 = h) :
      LockStep s ⟨(k, h) :: s.held⟩
  | release (k : String) (h : Nat) (s : LockState)
      (pre post : List (String × Nat))
      (heq : s.held = pre ++ (k, h) :: post) :
      LockStep s ⟨pre ++ post⟩

/-- States reachable from the no-holds initial state by arbiter
steps. -/
inductive LockReach : LockState → Prop where
  | init : LockReach ⟨[]⟩
  | step {s t : LockState} : LockReach s → LockStep s t → LockReach t

/-- Mutual exclusion at a state: any two holds of the same key belong
to the same logical holder, so two distinct holders are never both in
the held state for one key. -/
def MutualExclusion (s : LockState) : Prop :=
  ∀ k h1 h2, (k, h1) ∈ s.held → (k, h2) ∈ s.held → h1 = h2

/-- Lookup in a registry extended at the end: an existing binding
wins; otherwise the new binding answers for its own key. -/
theorem lookupLock_append (l : List (String × Nat)) (x : String × Nat)
    (k : String) :
    lookupLock (l ++ [x]) k =
      (match lookupLock l k with
       | some v => some v
       | none => if x.1 = k then some x.2 else none) := by
  induction l with
  | nil => rfl
  | cons p rest ih =>
    obtain ⟨k2, v⟩ := p
    by_cases hk : k2 = k <;> simp [lookupLock, hk, ih]

/-- A call preserves well-formedness of the registry. -/
theorem ProcessLockFactory.call_WF (s : ProcessLockFactory) (key : String)
    (e t : Nat) (hwf : s.WF) : (s.call key e t).1.WF := by
  obtain ⟨hbound, hinj⟩ := hwf
  cases hl : lookupLock s.locks key with
  | some i =>
    simp only [ProcessLockFactory.call, hl]
    exact ⟨hbound, hinj⟩
  | none =>
    simp only [ProcessLockFactory.call, hl]
    constructor
    · intro k v hv
      rw [lookupLock_append] at hv
      cases hk : lookupLock s.locks k with
      | some w =>
        rw [hk] at hv
        simp only [Option.some.injEq] at hv
        have := hbound k w hk
        show v < s.nextId + 1
        omega
      | none =>
        rw [hk] at hv
        by_cases hkey : key = k
        · simp [hkey] at hv
          show v < s.nextId + 1
          omega
        · simp [hkey] at hv
    · intro k1 k2 v h1 h2
      rw [lookupLock_append] at h1 h2
      cases hk1 : lookupLock s.locks k1 with
      | some w1 =>
        rw [hk1] at h1
        simp only [Option.some.injEq] at h1
        cases hk2 : lookupLock s.locks k2 with
        | some w2 =>
          rw [hk2] at h2
          simp only [Option.some.injEq] at h2
          exact hinj k1 k2 v (h1 ▸ hk1) (h2 ▸ hk2)
        | none =>
          rw [hk2] at h2
          by_cases hkey : key = k2
          · simp [hkey] at h2
            have := hbound k1 w1 hk1
            exfalso
            omega
          · simp [hkey] at h2
      | none =>
        rw [hk1] at h1
        by_cases hkey1 : key = k1
        · cases hk2 : lookupLock s.locks k2 with
          | some w2 =>
            rw [hk2] at h2
            simp only [Option.some.injEq] at h2
            simp [hkey1] at h1
            have := hbound k2 w2 hk2
            exfalso
            omega
          | none =>
            rw [hk2] at h2
            by_cases hkey2 : key = k2
            · rw [← hkey1, ← hkey2]
            · simp [hkey2] at h2
        · simp [hkey1] at h1

/-- Immediately after a call for a key, the registry answers that key
with the id the call returned. -/
theorem lookupLock_call (s : ProcessLockFactory) (key : String) (e t : Nat) :
    lookupLock (s.call key e t).1.locks key = some (s.call key e t).2.1 := by
  cases hl : lookupLock s.locks key with
  | some i =>
    simp only [ProcessLockFactory.call, hl]
  | none =>
    simp only [ProcessLockFactory.call, hl]
    rw [lookupLock_append, hl]
    simp

/-- C1: in decorator mode with fixed key, expires and timeout, every
call acquires the lock obtained from the factory first, then runs the
wrapped function, then releases the lock; a returned value comes back
unchanged (tagged some for normal completion of the with statement)
and a raised exception still releases the lock and propagates
unchanged, given that the lock does not suppress exceptions — which no
lock of this repository does. -/
theorem C1_decorator_guarantees (ann : LockAnn ScopedLock) (key : String)
    (e t : Nat) (f : α → List Ev × Except PyExn β) (args : α)
    (hns : (ann.factory key e t).suppress = false) :
    (LockAnn.decorate ann key f args e t).1
      = (ann.factory key e t).enter ++ (f args).1 ++ (ann.factory key e t).exit
    ∧ (LockAnn.decorate ann key f args e t).2 = (f args).2.map some := by
  constructor
  · rfl
  · rcases hr : (f args).2 with ex | v <;>
      simp [LockAnn.decorate, withScope, hr, hns, Except.map]

/-- Witness for C1 at the dummy factory with a body that raises: the
trace is enter, body, exit and the exception comes back unchanged. -/
theorem C1_witness :
    (LockAnn.decorate dummyAnn "once"
        (fun _ : Unit => ([Ev.callF], (.error (.userExn 7) : Except PyExn Nat)))
        () 120 60).1 = [Ev.callF]
    ∧ (LockAnn.decorate dummyAnn "once"
        (fun _ : Unit => ([Ev.callF], (.error (.userExn 7) : Except PyExn Nat)))
        () 120 60).2 = .error (.userExn 7) :=
  C1_decorator_guarantees dummyAnn "once" 120 60
    (fun _ : Unit => ([Ev.callF], (.error (.userExn 7) : Except PyExn Nat)))
    () rfl

/-- One arbiter step preserves mutual exclusion: an acquire is guarded
by the key being free of distinct holders, and a release only removes
a hold. -/
theorem lockStep_mutex {s t : LockState} (hstep : LockStep s t)
    (ih : MutualExclusion s) : MutualExclusion t := by
  cases hstep with
  | acquire k hold _ hfree =>
    intro k0 h1 h2 hm1 hm2
    simp only [List.mem_cons] at hm1 hm2
    rcases hm1 with hm1 | hm1 <;> rcases hm2 with hm2 | hm2
    · injection hm1 with hk1 hh1
      injection hm2 with hk2 hh2
      rw [hh1, hh2]
    · injection hm1 with hk1 hh1
      rw [hh1, hfree h2 (hk1 ▸ hm2)]
    · injection hm2 with hk2 hh2
      rw [hh2, hfree h1 (hk2 ▸ hm1)]
    · exact ih k0 h1 h2 hm1 hm2
  | release k hold _ pre post heq =>
    intro k0 h1 h2 hm1 hm2
    have hsub : ∀ a : String × Nat, a ∈ pre ++ post → a ∈ s.held := by
      intro a ha
      rw [heq]
      rcases List.mem_append.mp ha with h | h
      · exact List.mem_append.mpr (Or.inl h)
      · exact List.mem_append.mpr (Or.inr (List.mem_cons_of_mem _ h))
    exact ih k0 h1 h2 (hsub _ hm1) (hsub _ hm2)

/-- C2: in every state the arbiter transition system can reach, two
logically distinct holders are never both in the held state for the
same key — the mutual-exclusion invariant of the backends within their
visibility scope, where the acquire guard encodes the blocking
behavior of the per-key RLock of ProcessLockFactory and of the
exclusive flock taken by file_lock. -/
theorem C2_mutual_exclusion (s : LockState) (hreach : LockReach s) :
    MutualExclusion s := by
  induction hreach with
  | init =>
    intro k h1 h2 hm1 hm2
    simp at hm1
  | step hr hstep ih => exact lockStep_mutex hstep ih

/-- Witness for C2 at the concrete state where holder 0 has taken key
A from the empty initial state. -/
theorem C2_witness : MutualExclusion ⟨[("A", 0)]⟩ :=
  C2_mutual_exclusion ⟨[("A", 0)]⟩
    (LockReach.step LockReach.init (LockStep.acquire "A" 0 ⟨[]⟩ (by simp)))

/-- C3 counterexample: the selection step of init_celery does not
recognize the selector value external; it resolves it to the literal
entry-point name external, not to the redis factory. -/
theorem C3_counterexample :
    resolveFactoryName [("lock_factory", "external")] = "external"
    ∧ resolveFactoryName [("lock_factory", "external")] ≠ redisFactoryPath := by
  constructor <;> decide

/-- C3 amended: the selection step recognizes exactly the shortcut
values none (also the default when the setting is absent), proc and
file, mapping them to the no-op, in-process and file factories; every
other value — external included — is passed through verbatim as a
dynamic entry-point name, so the redis factory is selected only by its
full entry-point path. -/
theorem C3_amended_selection (n : String)
    (h1 : n ≠ "none") (h2 : n ≠ "proc") (h3 : n ≠ "file") :
    resolveFactoryName [] = "eat_your_vegetables.locks:DummyLockFactory"
    ∧ resolveFactoryName [("lock_factory", "none")]
        = "eat_your_vegetables.locks:DummyLockFactory"
    ∧ resolveFactoryName [("lock_factory", "proc")]
        = "eat_your_vegetables.locks:ProcessLockFactory"
    ∧ resolveFactoryName [("lock_factory", "file")]
        = "eat_your_vegetables.locks:FileLockFactory"
    ∧ resolveFactoryName [("lock_factory", n)] = n := by
  refine ⟨by decide, by decide, by decide, by decide, ?_⟩
  simp [resolveFactoryName, getSetting, h1, h2, h3]

/-- Witness for C3 amended at the entry-point path of the redis
factory, the value a config actually uses to select it. -/
theorem C3_amended_witness :
    resolveFactoryName [] = "eat_your_vegetables.locks:DummyLockFactory"
    ∧ resolveFactoryName [("lock_factory", "none")]
        = "eat_your_vegetables.locks:DummyLockFactory"
    ∧ resolveFactoryName [("lock_factory", "proc")]
        = "eat_your_vegetables.locks:ProcessLockFactory"
    ∧ resolveFactoryName [("lock_factory", "file")]
        = "eat_your_vegetables.locks:FileLockFactory"
    ∧ resolveFactoryName [("lock_factory", redisFactoryPath)]
        = redisFactoryPath :=
  C3_amended_selection redisFactoryPath (by decide) (by decide) (by decide)

/-- C4 counterexample: constructing the redis factory with a
well-formed url for a host nobody can reach (the reachable-host list
is empty) succeeds and performs no network traffic, so an unreachable
store is not detected at construction time. -/
theorem C4_counterexample :
    redisLockFactoryInit [("redis_url", "redis://10.255.255.1:6379/0")] []
      = (.ok { url := "redis://10.255.255.1:6379/0" }, []) := by
  rfl

/-- C4 amended: construction fails fatally exactly for configuration
errors — a missing redis_url setting raises KeyError (and a malformed
url raises at parse time) — while the construction result never
depends on which hosts are reachable and never emits network traffic,
because the client connects lazily; an unreachable endpoint therefore
surfaces at first acquisition, not at construction. -/
theorem C4_amended_lazy_init (settings : Settings) (net1 net2 : List String)
    (hmissing : getSetting settings "redis_url" = none) :
    (redisLockFactoryInit settings net1).1 = .error (.keyError "redis_url")
    ∧ redisLockFactoryInit settings net1 = redisLockFactoryInit settings net2
    ∧ (redisLockFactoryInit settings net1).2 = [] := by
  refine ⟨?_, rfl, ?_⟩ <;> simp [redisLockFactoryInit, hmissing]

/-- Witness for C4 amended at a settings mapping without redis_url,
compared across an empty and a nonempty reachable-host list. -/
theorem C4_amended_witness :
    (redisLockFactoryInit [("other", "x")] []).1
      = .error (.keyError "redis_url")
    ∧ redisLockFactoryInit [("other", "x")] []
        = redisLockFactoryInit [("other", "x")] ["db.example.com"]
    ∧ (redisLockFactoryInit [("other", "x")] []).2 = [] :=
  C4_amended_lazy_init [("other", "x")] [] ["db.example.com"] (by decide)

/-- C5: the locks produced by the in-process and file backends are
completely independent of the expires and timeout arguments — the two
calls are equal outputs for any two argument pairs, with no
enforcement, rejection or warning anywhere in either call. -/
theorem C5_parameters_ignored (s : ProcessLockFactory) (fl : FileLockFactory)
    (key : String) (e1 t1 e2 t2 : Nat) :
    s.call key e1 t1 = s.call key e2 t2
    ∧ fl.call key e1 t1 = fl.call key e2 t2 :=
  ⟨rfl, rfl⟩

/-- C6: the in-process registry is only touched between taking and
dropping the internal factory mutex (the trace of every call is
exactly mutexAcq, lookup, mutexRel); on a well-formed factory a
repeated call for the same key returns the same RLock object and
leaves the registry unchanged, and calls for two distinct keys return
distinct RLock objects. -/
theorem C6_registry_invariants (s : ProcessLockFactory) (k1 k2 : String)
    (e1 t1 e2 t2 : Nat) (hwf : s.WF) (hne : k1 ≠ k2) :
    (s.call k1 e1 t1).2.2 = [Ev.mutexAcq, Ev.lookup k1, Ev.mutexRel]
    ∧ ((s.call k1 e1 t1).1.call k1 e2 t2).2.1 = (s.call k1 e1 t1).2.1
    ∧ ((s.call k1 e1 t1).1.call k1 e2 t2).1 = (s.call k1 e1 t1).1
    ∧ ((s.call k1 e1 t1).1.call k2 e2 t2).2.1 ≠ (s.call k1 e1 t1).2.1 := by
  have hl1 := lookupLock_call s k1 e1 t1
  have hwf1 := ProcessLockFactory.call_WF s k1 e1 t1 hwf
  set s1 := (s.call k1 e1 t1).1 with hs1
  set i1 := (s.call k1 e1 t1).2.1 with hi1
  refine ⟨?_, ?_, ?_, ?_⟩
  · cases hl : lookupLock s.locks k1 <;> simp [ProcessLockFactory.call, hl]
  · simp [ProcessLockFactory.call, hl1]
  · simp [ProcessLockFactory.call, hl1]
  · cases hl2 : lookupLock s1.locks k2 with
    | some j =>
      simp only [ProcessLockFactory.call, hl2]
      intro heq
      rw [heq] at hl2
      exact hne (hwf1.2 k1 k2 _ hl1 hl2)
    | none =>
      simp only [ProcessLockFactory.call, hl2]
      have hb := hwf1.1 k1 _ hl1
      show s1.nextId ≠ i1
      omega

/-- Witness for C6 on the freshly constructed factory with keys A and
B. -/
theorem C6_witness :
    (ProcessLockFactory.initial.call "A" 120 60).2.2
      = [Ev.mutexAcq, Ev.lookup "A", Ev.mutexRel]
    ∧ ((ProcessLockFactory.initial.call "A" 120 60).1.call "A" 120 60).2.1
        = (ProcessLockFactory.initial.call "A" 120 60).2.1
    ∧ ((ProcessLockFactory.initial.call "A" 120 60).1.call "A" 120 60).1
        = (ProcessLockFactory.initial.call "A" 120 60).1
    ∧ ((ProcessLockFactory.initial.call "A" 120 60).1.call "B" 120 60).2.1
        ≠ (ProcessLockFactory.initial.call "A" 120 60).2.1 :=
  C6_registry_invariants ProcessLockFactory.initial "A" "B" 120 60 120 60
    ⟨fun k v h => by simp [ProcessLockFactory.initial, lookupLock] at h,
     fun k1 k2 v h1 h2 => by simp [ProcessLockFactory.initial, lookupLock] at h1⟩
    (by decide)

/-- C7: the file backend takes its lock directory from the lock_dir
setting with default /var/run/celery/, ensures the directory exists
after construction, and every acquisition is a file_lock on the path
joining that directory with the key: open and flock exclusively on
enter, close — which drops the advisory lock — on every scope exit,
with nothing suppressed. -/
theorem C7_file_backend_paths (settings : Settings) (fs : List String)
    (f : FileLockFactory) (key : String) (e t : Nat) :
    (FileLockFactory.init settings fs).1.lockdir
      = (getSetting settings "lock_dir").getD "/var/run/celery/"
    ∧ (FileLockFactory.init settings fs).1.lockdir
        ∈ (FileLockFactory.init settings fs).2
    ∧ f.call key e t = file_lock (pathJoin f.lockdir key)
    ∧ (f.call key e t).enter
        = [Ev.openFile (pathJoin f.lockdir key),
           Ev.flockEx (pathJoin f.lockdir key)]
    ∧ (f.call key e t).exit = [Ev.closeFile (pathJoin f.lockdir key)]
    ∧ (f.call key e t).suppress = false := by
  refine ⟨rfl, ?_, rfl, rfl, rfl, rfl⟩
  by_cases hd : ((getSetting settings "lock_dir").getD "/var/run/celery/") ∈ fs <;>
    simp [FileLockFactory.init, hd]

/-- C8: before init_celery has run, the module-level lock and celery
objects are ImportWarningClass instances; calling one, or calling
anything reached from one through any chain of attribute accesses
(lock.inline included), raises the ValueError telling the caller to
set up before importing task files — so no lock is ever produced. -/
theorem C8_import_warning_raises (names args : List String) :
    (names.foldl ImportWarningObj.getattr ImportWarningObj.mk).call args
      = .error (.valueError importWarningMsg) := by
  induction names with
  | nil => rfl
  | cons n rest ih => exact ih

/-- C9: the file backend does not sanitize the key before joining it
onto the lock directory: an absolute key makes os.path.join discard
the configured directory entirely, and a parent-directory key resolves
to a file outside the directory, while an ordinary key stays
inside. -/
theorem C9_key_path_escape :
    pathJoin "/var/run/celery/" "/tmp/evil" = "/tmp/evil"
    ∧ (FileLockFactory.mk "/var/run/celery/").call "/tmp/evil" 120 60
        = file_lock "/tmp/evil"
    ∧ insideDir (pathJoin "/var/run/celery/" "../evil") "/var/run/celery/"
        = false
    ∧ normalizePath (pathJoin "/var/run/celery/" "../evil")
        = ["var", "run", "evil"]
    ∧ insideDir (pathJoin "/var/run/celery/" "job1") "/var/run/celery/"
        = true := by
  refine ⟨by decide, by rfl, by decide, by decide, by decide⟩

/-- C10: with the expires and timeout arguments omitted, both the
decorator mode and the inline mode hand the defaults expires = 120 and
timeout = 60 to the underlying factory, as the recording factory
observes. -/
theorem C10_default_arguments (ann : LockAnn ScopedLock) (key : String)
    (f : α → List Ev × Except PyExn β) (args : α) :
    LockAnn.decorate ann key f args = withScope (ann.factory key 120 60) (f args)
    ∧ LockAnn.inline ann key = ann.factory key 120 60
    ∧ LockAnn.inline recordingFactory key = (key, 120, 60) :=
  ⟨rfl, rfl, rfl⟩
